import Mathlib

/-!
Verification development for the UART-MQTT bridge firmware.

The definitions below are a shallow embedding of the coordinator callbacks
in `main/main.c`, the LED control task in `main/led_handler.c`, the MQTT
session component in `components/mqtt_comm/mqtt_comm.c`, and the UART
transport in `components/uart_comm/uart_comm.c`.  External collaborators
(the cJSON parser, the ESP-IDF MQTT client, the FreeRTOS queue and
semaphore primitives, the UART driver) are modelled at their interface:
parse results, operation results and mutex-acquisition outcomes are
explicit parameters, and the side effects a function performs (queue
sends, publishes, subscribes, serial writes, GPIO writes) are returned as
explicit traces.
-/

/-- Result codes of `esp_err_t` as used by this code base. -/
inductive CEsp where
  | ok
  | fail
  | invalidArg
deriving DecidableEq, Repr

/-- The `led_command_t` enumeration from `main/common_defs.h`. -/
inductive LedCmd where
  | off
  | wifiConnecting
  | wifiConnected
  | mqttConnected
  | uartRxReceived
  | mqttRxReceived
  | error
deriving DecidableEq, Repr

/-- The `wifi_conn_status_t` enumeration from `wifi_conn.h`. -/
inductive WifiConnStatus where
  | disconnected
  | connecting
  | connectedGotIp
  | connectionFailed
deriving DecidableEq, Repr

/-- The `mqtt_conn_status_t` enumeration from `mqtt_comm.h`. -/
inductive MqttConnStatus where
  | disconnected
  | connecting
  | connected
  | error
deriving DecidableEq, Repr

/-- JSON values as produced by the external cJSON parser (modelled at the
interface used by `main.c`: objects are field lists, strings carry their
`valuestring`). -/
inductive JVal where
  | null
  | bool (b : Bool)
  | num (n : Int)
  | str (s : String)
  | arr (xs : List JVal)
  | obj (fields : List (String × JVal))

/-- Field lookup on a cJSON object's field list: first field with the
requested name, as `cJSON_GetObjectItem` returns. -/
def lookupField : List (String × JVal) → String → Option JVal
  | [], _ => none
  | (k, v) :: rest, key => if k = key then some v else lookupField rest key

/-- Model of `cJSON_GetObjectItem`: `NULL` (here `none`) when the value is
not an object or has no field of that name. -/
def getObjectItem : JVal → String → Option JVal
  | .obj fields, key => lookupField fields key
  | _, _ => none

/-- Model of the `cJSON_IsString(item) && item->valuestring` test in
`app_uart_rx_callback`. -/
def isStrField (v : JVal) (key : String) : Bool :=
  match getObjectItem v key with
  | some (.str _) => true
  | _ => false

/-- Truncating string copy: `snprintf` into a buffer of `bufSize` bytes
writes at most `bufSize - 1` characters of the formatted string. -/
def strTake (s : String) (n : Nat) : String :=
  ⟨s.data.take n⟩

/-- The `APP_MQTT_PUB_BASE_TOPIC` literal from `main/common_defs.h`. -/
def APP_MQTT_PUB_BASE_TOPIC : String := "pub/data/"

/-- The `APP_MQTT_SUB_BASE_TOPIC` literal from `main/common_defs.h`. -/
def APP_MQTT_SUB_BASE_TOPIC : String := "sub/data/"

/-- One `mqtt_comm_publish(topic, data, len, qos, retain)` call. -/
structure PubCall where
  topic : String
  payload : String
  len : Int
  qos : Int
  retain : Int
deriving DecidableEq, Repr

/-- The side effects of one `app_uart_rx_callback` invocation: LED queue
sends (command, timeout in ms), publish calls, and serial frames written
via `uart_comm_transmit`. -/
structure UartRxOut where
  leds : List (LedCmd × Nat)
  pubs : List PubCall
  txs : List String
deriving DecidableEq, Repr

/-- Shallow embedding of `app_uart_rx_callback` (`main/main.c`, lines
39-95).  `mallocOk` is the outcome of the `malloc(len + 1)` for the JSON
string copy; `root` is the result of `cJSON_Parse` on the received
buffer; `pubRet` is the result returned by `mqtt_comm_publish`. -/
def app_uart_rx_callback (mallocOk : Bool) (root : Option JVal)
    (pubRet : CEsp) : UartRxOut :=
  let leds : List (LedCmd × Nat) := [(LedCmd.uartRxReceived, 10)]
  if !mallocOk then
    ⟨leds, [], []⟩
  else
    match root with
    | none => ⟨leds, [], ["Error: Invalid JSON\r\n"]⟩
    | some r =>
      match getObjectItem r "topic", getObjectItem r "payload" with
      | some (.str t), some (.str p) =>
        let fullTopic := strTake (APP_MQTT_PUB_BASE_TOPIC ++ t) 127
        let call : PubCall := ⟨fullTopic, p, -1, 1, 0⟩
        if pubRet = .ok then
          ⟨leds, [call], ["OK: Sent to MQTT Queue\r\n"]⟩
        else
          ⟨leds, [call], ["Error: Failed to send to MQTT\r\n"]⟩
      | _, _ =>
        ⟨leds, [], ["Error: Missing/Invalid \x27topic\x27 or \x27payload\x27\r\n"]⟩

/-- Shallow embedding of `app_wifi_status_callback` (`main/main.c`, lines
98-124): the LED queue sends it performs, each with its timeout in ms. -/
def app_wifi_status_callback : WifiConnStatus → List (LedCmd × Nat)
  | .disconnected => [(LedCmd.wifiConnecting, 10)]
  | .connecting => [(LedCmd.wifiConnecting, 10)]
  | .connectedGotIp => [(LedCmd.wifiConnected, 10)]
  | .connectionFailed => [(LedCmd.error, 10)]

/-- One observable effect of `app_mqtt_status_callback`: a LED queue send
(with timeout in ms) or a `mqtt_comm_subscribe` request, in program
order. -/
inductive StatusEffect where
  | ledSend (cmd : LedCmd) (timeoutMs : Nat)
  | subscribeReq (topic : String) (qos : Int)
deriving DecidableEq, Repr

/-- Shallow embedding of `app_mqtt_status_callback` (`main/main.c`, lines
127-171).  `wifiConnected` is the value returned by
`wifi_conn_is_connected()`; `subTopic` is the current content of
`mqtt_sub_topic_str`. -/
def app_mqtt_status_callback (wifiConnected : Bool) (subTopic : String) :
    MqttConnStatus → List StatusEffect
  | .disconnected =>
    [.ledSend (if wifiConnected then .wifiConnected else .wifiConnecting) 10]
  | .connecting => []
  | .connected =>
    .ledSend .mqttConnected 10 ::
      (if subTopic.length > 0 then [.subscribeReq subTopic 1] else [])
  | .error =>
    [.ledSend (if wifiConnected then .wifiConnected else .wifiConnecting) 10]

/-- The LED commands contained in a list of status-handler effects (the
commands that end up on the indicator queue). -/
def ledCmdsOfEffects (effs : List StatusEffect) : List LedCmd :=
  effs.filterMap fun e =>
    match e with
    | .ledSend c _ => some c
    | _ => none

/-- The digit table used by `%X` formatting. -/
def hexChars : List Char := "0123456789ABCDEF".data

/-- One hexadecimal digit character for a value below 16. -/
def hexDigit (n : Nat) : Char := hexChars.getD n 'X'

/-- The two characters `%02X` produces for one byte. -/
def byteHex (b : Fin 256) : List Char :=
  [hexDigit (b.val / 16), hexDigit (b.val % 16)]

/-- A 6-byte hardware (MAC) address as filled in by `esp_wifi_get_mac`. -/
structure Mac where
  b0 : Fin 256
  b1 : Fin 256
  b2 : Fin 256
  b3 : Fin 256
  b4 : Fin 256
  b5 : Fin 256

/-- Shallow embedding of `get_mac_address_str` (`main/main.c`, lines
205-212): `snprintf(mac_address_str, 18, "%02X%02X%02X%02X%02X%02X",
mac[0], ..., mac[5])`. -/
def mac_address_str (m : Mac) : String :=
  strTake ⟨byteHex m.b0 ++ byteHex m.b1 ++ byteHex m.b2 ++
    byteHex m.b3 ++ byteHex m.b4 ++ byteHex m.b5⟩ 17

/-- Shallow embedding of the subscription-topic computation in `app_main`
(`main/main.c`, line 272): `snprintf(mqtt_sub_topic_str, 64, "%s%s",
APP_MQTT_SUB_BASE_TOPIC, mac_address_str)`. -/
def mqtt_sub_topic_str (m : Mac) : String :=
  strTake (APP_MQTT_SUB_BASE_TOPIC ++ mac_address_str m) 63

/-- Bytes of a C string (the serial and MQTT paths of `main.c` handle
byte buffers; string literals in the code are ASCII). -/
def strBytes (s : String) : List Nat := s.data.map Char.toNat

/-- C `strncmp(a, b, n) == 0`: compare at most `n` bytes, stopping early
at a mismatch or at a NUL byte present in both strings. -/
def strncmpZero : List Nat → List Nat → Nat → Bool
  | _, _, 0 => true
  | a :: as, b :: bs, n + 1 =>
    if a ≠ b then false
    else if a = 0 then true
    else strncmpZero as bs n
  | _, _, _ + 1 => false

/-- C `snprintf` `%.*s` with precision `n` on source bytes `d`: copies at
most `n` bytes, stopping at the first NUL byte. -/
def cstrTake (n : Nat) (d : List Nat) : List Nat :=
  (d.take n).takeWhile fun b => b ≠ 0

/-- The side effects of one `app_mqtt_data_callback` invocation: LED
queue sends and the byte frames written via `uart_comm_transmit`. -/
structure MqttDataOut where
  leds : List (LedCmd × Nat)
  sends : List (List Nat)
deriving DecidableEq, Repr

/-- Shallow embedding of `app_mqtt_data_callback` (`main/main.c`, lines
174-201).  `sub` is the byte content of `mqtt_sub_topic_str` (so
`sub.length` is its `strlen`); `topic` and `data` are the delivered topic
and payload buffers, whose C lengths `topic_len` and `data_len` are the
list lengths.  The formatted frame is written into a stack buffer of
`data_len + 32` bytes by `snprintf`, whose return value (the untruncated
formatted length) is the transmit length. -/
def app_mqtt_data_callback (sub topic data : List Nat) : MqttDataOut :=
  let leds : List (LedCmd × Nat) := [(LedCmd.mqttRxReceived, 10)]
  if topic.length == sub.length && strncmpZero topic (sub ++ [0]) topic.length then
    let frame := strBytes "MQTT Data: " ++ cstrTake data.length data ++ strBytes "\r\n"
    let written := frame.take (data.length + 32 - 1)
    if frame.length > 0 then ⟨leds, [written]⟩ else ⟨leds, []⟩
  else
    ⟨leds, []⟩

/-- Shallow embedding of one step of `led_control_task`
(`main/led_handler.c`, lines 28-137): from the current
`current_led_steady_state` and one received command, the new steady state
and the sequence of GPIO levels written while handling the command. -/
def ledStep (steady : LedCmd) (cmd : LedCmd) : LedCmd × List Nat :=
  let wasOn : Bool := steady == LedCmd.mqttConnected
  let pre : List Nat :=
    if cmd != LedCmd.uartRxReceived && cmd != LedCmd.mqttRxReceived then [0] else []
  match cmd with
  | .wifiConnecting => (cmd, pre ++ [1, 0])
  | .wifiConnected => (cmd, pre ++ [1, 0])
  | .mqttConnected => (cmd, pre ++ [1])
  | .uartRxReceived =>
    (steady, (if wasOn then [0] else []) ++ [1, 0, 1, 0] ++ (if wasOn then [1] else []))
  | .mqttRxReceived =>
    (steady, (if wasOn then [0] else []) ++ [1, 0] ++ (if wasOn then [1] else []))
  | .error => (cmd, pre ++ [1, 0])
  | .off => (LedCmd.off, pre ++ [0])

/-- Processing a sequence of commands from the indicator queue: final
steady state and concatenated GPIO write trace. -/
def ledRun : LedCmd → List LedCmd → LedCmd × List Nat
  | s, [] => (s, [])
  | s, c :: cs =>
    let step := ledStep s c
    let rest := ledRun step.1 cs
    (rest.1, step.2 ++ rest.2)

/-- An activity command of the indicator protocol (`LED_CMD_UART_RX_RECEIVED`
or `LED_CMD_MQTT_RX_RECEIVED`). -/
def isActivityCmd (c : LedCmd) : Prop :=
  c = LedCmd.uartRxReceived ∨ c = LedCmd.mqttRxReceived

/-- The relevant shared state of `mqtt_comm.c`: `s_is_initialized`,
`s_is_connected` and whether `s_client` is non-NULL. -/
structure MqttState where
  isInitialized : Bool
  isConnected : Bool
  hasClient : Bool
deriving DecidableEq, Repr

/-- Result of one `mqtt_comm` operation: its return code and the number
of invocations of the underlying `esp_mqtt_client_*` call it made. -/
structure MqttOpOut where
  ret : CEsp
  clientCalls : Nat
deriving DecidableEq, Repr

/-- Shallow embedding of `mqtt_comm_publish` (`mqtt_comm.c`, lines
125-151).  `mutexOk` is the outcome of
`xSemaphoreTake(s_client_mutex, pdMS_TO_TICKS(100))`; `topicNonNull` and
`dataNonNull` model the pointer checks; `msgIdOk` is whether
`esp_mqtt_client_publish` returned a message id other than -1. -/
def mqtt_comm_publish (st : MqttState) (topicNonNull dataNonNull : Bool)
    (len : Int) (mutexOk msgIdOk : Bool) : MqttOpOut :=
  if !st.isInitialized || !topicNonNull || (!dataNonNull && len ≠ 0) then
    ⟨.invalidArg, 0⟩
  else if mutexOk then
    if st.isConnected && st.hasClient then
      if msgIdOk then ⟨.ok, 1⟩ else ⟨.fail, 1⟩
    else ⟨.fail, 0⟩
  else ⟨.fail, 0⟩

/-- Shallow embedding of `mqtt_comm_subscribe` (`mqtt_comm.c`, lines
153-179). -/
def mqtt_comm_subscribe (st : MqttState) (topicNonNull : Bool)
    (mutexOk msgIdOk : Bool) : MqttOpOut :=
  if !st.isInitialized || !topicNonNull then
    ⟨.invalidArg, 0⟩
  else if mutexOk then
    if st.isConnected && st.hasClient then
      if msgIdOk then ⟨.ok, 1⟩ else ⟨.fail, 1⟩
    else ⟨.fail, 0⟩
  else ⟨.fail, 0⟩

/-- Shallow embedding of `mqtt_comm_unsubscribe` (`mqtt_comm.c`, lines
181-207). -/
def mqtt_comm_unsubscribe (st : MqttState) (topicNonNull : Bool)
    (mutexOk msgIdOk : Bool) : MqttOpOut :=
  if !st.isInitialized || !topicNonNull then
    ⟨.invalidArg, 0⟩
  else if mutexOk then
    if st.isConnected && st.hasClient then
      if msgIdOk then ⟨.ok, 1⟩ else ⟨.fail, 1⟩
    else ⟨.fail, 0⟩
  else ⟨.fail, 0⟩

/-- Shallow embedding of `mqtt_comm_is_connected` (`mqtt_comm.c`, lines
209-220): the local `connected` starts `false` and is copied from
`s_is_connected` only when the mutex take (50 ms) succeeds. -/
def mqtt_comm_is_connected (st : MqttState) (mutexOk : Bool) : Bool :=
  if mutexOk then st.isConnected else false

/-- Kind of a blocking primitive invocation. -/
inductive WaitKind where
  | queueSend
  | mutexTake
deriving DecidableEq, Repr

/-- One blocking-primitive invocation in the code: its kind and its
timeout in ms, where `none` stands for `portMAX_DELAY` (an unbounded
wait). -/
structure Wait where
  kind : WaitKind
  timeoutMs : Option Nat
deriving DecidableEq, Repr

/-- A wait is bounded when its timeout is finite (not `portMAX_DELAY`). -/
def waitBounded (w : Wait) : Bool := w.timeoutMs.isSome

/-- Queue sends and mutex takes performed by `uart_comm_transmit`
(`uart_comm.c`, lines 96-120): `xSemaphoreTake(s_tx_mutex, portMAX_DELAY)`. -/
def uart_comm_transmit_waits : List Wait := [⟨.mutexTake, none⟩]

/-- Waits of `mqtt_comm_publish` (`mqtt_comm.c`, line 131):
`xSemaphoreTake(s_client_mutex, pdMS_TO_TICKS(100))`. -/
def mqtt_comm_publish_waits : List Wait := [⟨.mutexTake, some 100⟩]

/-- Waits of `mqtt_comm_subscribe` (`mqtt_comm.c`, line 159). -/
def mqtt_comm_subscribe_waits : List Wait := [⟨.mutexTake, some 100⟩]

/-- Waits of `mqtt_comm_unsubscribe` (`mqtt_comm.c`, line 187). -/
def mqtt_comm_unsubscribe_waits : List Wait := [⟨.mutexTake, some 100⟩]

/-- Waits of `mqtt_comm_is_connected` (`mqtt_comm.c`, line 213). -/
def mqtt_comm_is_connected_waits : List Wait := [⟨.mutexTake, some 50⟩]

/-- Waits of `wifi_conn_is_connected` (`wifi_conn.c`, lines 122-125):
`xEventGroupGetBits` does not block. -/
def wifi_conn_is_connected_waits : List Wait := []

/-- Queue sends and mutex takes reachable from `app_uart_rx_callback`
(`main/main.c`, lines 39-95): the LED queue send (10 ms), the serial
response writes through `uart_comm_transmit`, and the publish through
`mqtt_comm_publish`. -/
def app_uart_rx_callback_waits : List Wait :=
  [⟨.queueSend, some 10⟩] ++ uart_comm_transmit_waits ++ mqtt_comm_publish_waits

/-- Waits reachable from `app_wifi_status_callback` (`main/main.c`, lines
98-124): one LED queue send (10 ms) on every branch. -/
def app_wifi_status_callback_waits : List Wait := [⟨.queueSend, some 10⟩]

/-- Waits reachable from `app_mqtt_status_callback` (`main/main.c`, lines
127-171): the `wifi_conn_is_connected` query, the LED queue send (10 ms),
and the subscribe through `mqtt_comm_subscribe`. -/
def app_mqtt_status_callback_waits : List Wait :=
  wifi_conn_is_connected_waits ++ [⟨.queueSend, some 10⟩] ++ mqtt_comm_subscribe_waits

/-- Waits reachable from `app_mqtt_data_callback` (`main/main.c`, lines
174-201): the LED queue send (10 ms) and the serial write through
`uart_comm_transmit`. -/
def app_mqtt_data_callback_waits : List Wait :=
  [⟨.queueSend, some 10⟩] ++ uart_comm_transmit_waits

/-- Waits reachable from `mqtt_event_handler` (`mqtt_comm.c`, lines
267-326): its own `xSemaphoreTake(s_client_mutex, portMAX_DELAY)` on the
CONNECTED, DISCONNECTED and ERROR events, plus everything reachable
through the registered status and data callbacks. -/
def mqtt_event_handler_waits : List Wait :=
  [⟨.mutexTake, none⟩] ++ app_mqtt_status_callback_waits ++ app_mqtt_data_callback_waits

/-- Waits reachable from `wifi_event_handler` (`wifi_conn.c`, lines
175-206): the event-group bit operations do not block; the status
callback is `app_wifi_status_callback`. -/
def wifi_event_handler_waits : List Wait := app_wifi_status_callback_waits

/-- Waits reachable from `ip_event_handler` (`wifi_conn.c`, lines
208-219). -/
def ip_event_handler_waits : List Wait := app_wifi_status_callback_waits

/-- Queue sends and mutex takes reachable from the serial receive loop
`uart_rx_task` (`uart_comm.c`, lines 155-198), via `s_rx_callback =
app_uart_rx_callback`. -/
def uart_rx_task_waits : List Wait := app_uart_rx_callback_waits

/-- All queue sends and mutex takes reachable from the network/driver
callback contexts named by the spec: the MQTT event handler, the WiFi
event handlers, and the serial receive loop. -/
def callbackContextWaits : List Wait :=
  mqtt_event_handler_waits ++ wifi_event_handler_waits ++
    ip_event_handler_waits ++ uart_rx_task_waits

/-! Helper lemmas shared by the claim theorems. -/

lemma strTake_of_le (s : String) (n : Nat) (h : s.data.length ≤ n) :
    strTake s n = s := by
  cases s with
  | mk d => exact congrArg String.mk (List.take_of_length_le h)

lemma mac_address_str_data (m : Mac) :
    (mac_address_str m).data =
      byteHex m.b0 ++ byteHex m.b1 ++ byteHex m.b2 ++
        byteHex m.b3 ++ byteHex m.b4 ++ byteHex m.b5 := by
  unfold mac_address_str strTake
  apply List.take_of_length_le
  simp [byteHex]

lemma mac_address_str_length (m : Mac) : (mac_address_str m).length = 12 := by
  show (mac_address_str m).data.length = 12
  rw [mac_address_str_data]
  simp [byteHex]

lemma mqtt_sub_topic_str_eq (m : Mac) :
    mqtt_sub_topic_str m = APP_MQTT_SUB_BASE_TOPIC ++ mac_address_str m := by
  unfold mqtt_sub_topic_str
  apply strTake_of_le
  show (APP_MQTT_SUB_BASE_TOPIC.data ++ (mac_address_str m).data).length ≤ 63
  have h := mac_address_str_length m
  simp only [List.length_append]
  rw [show (mac_address_str m).data.length = 12 from h]
  decide

lemma hexDigit_mem (n : Nat) (h : n < 16) : hexDigit n ∈ hexChars := by
  interval_cases n <;> decide

lemma byteHex_mem (b : Fin 256) (c : Char) (h : c ∈ byteHex b) : c ∈ hexChars := by
  have h16 : b.val / 16 < 16 := by
    have := b.isLt
    omega
  have hm : b.val % 16 < 16 := Nat.mod_lt _ (by norm_num)
  simp only [byteHex, List.mem_cons, List.mem_singleton, List.not_mem_nil] at h
  rcases h with h | h | h
  · exact h ▸ hexDigit_mem _ h16
  · exact h ▸ hexDigit_mem _ hm
  · exact absurd h (by simp)

lemma mac_chars_hex (m : Mac) (c : Char) (h : c ∈ (mac_address_str m).data) :
    c ∈ hexChars := by
  rw [mac_address_str_data] at h
  simp only [List.mem_append] at h
  rcases h with ((((h | h) | h) | h) | h) | h <;> exact byteHex_mem _ _ h

lemma sub_topic_nul_free (m : Mac) : 0 ∉ strBytes (mqtt_sub_topic_str m) := by
  intro hmem
  rw [mqtt_sub_topic_str_eq] at hmem
  unfold strBytes at hmem
  rw [show (APP_MQTT_SUB_BASE_TOPIC ++ mac_address_str m).data =
        APP_MQTT_SUB_BASE_TOPIC.data ++ (mac_address_str m).data from rfl] at hmem
  rw [List.map_append] at hmem
  rcases List.mem_append.mp hmem with h | h
  · have : ∀ c ∈ APP_MQTT_SUB_BASE_TOPIC.data, Char.toNat c ≠ 0 := by decide
    rcases List.mem_map.mp h with ⟨c, hc, hc0⟩
    exact this c hc hc0
  · rcases List.mem_map.mp h with ⟨c, hc, hc0⟩
    have hhex := mac_chars_hex m c hc
    have : ∀ c ∈ hexChars, Char.toNat c ≠ 0 := by decide
    exact this c hhex hc0

lemma strncmpZero_eq_iff (t s : List Nat) (hs : 0 ∉ s)
    (hlen : t.length = s.length) :
    strncmpZero t (s ++ [0]) t.length = true ↔ t = s := by
  induction t generalizing s with
  | nil =>
    cases s with
    | nil => simp [strncmpZero]
    | cons b bs => simp at hlen
  | cons a as ih =>
    cases s with
    | nil => simp at hlen
    | cons b bs =>
      simp only [List.length_cons, Nat.succ.injEq] at hlen
      have hb : b ≠ 0 := fun h => hs (by simp [h])
      have hbs : 0 ∉ bs := fun h => hs (List.mem_cons_of_mem _ h)
      constructor
      · intro h
        simp only [List.cons_append, List.length_cons, strncmpZero] at h
        by_cases hab : a = b
        · subst hab
          simp only [ne_eq, not_true_eq_false, if_false, ite_not] at h
          rw [if_neg (by simpa using hb)] at h
          have := (ih bs hbs hlen).mp (by simpa [hlen] using h)
          simp [this]
        · simp [hab] at h
      · intro h
        injection h with h1 h2
        subst h1; subst h2
        simp only [List.cons_append, List.length_cons, strncmpZero]
        rw [if_neg (by simp)]
        rw [if_neg (by simpa using hb)]
        exact (ih as hbs hlen).mpr rfl

/-! Claim theorems. -/

/-- C5: every invocation of the WiFi status handler enqueues exactly one
indicator command with a bounded (10 ms) queue-send timeout, following
the fixed mapping Disconnected and Connecting to WifiConnecting,
ConnectedWithAddress to WifiConnected, and Failed to ErrorState. -/
theorem wifi_status_one_bounded_command :
    (∀ s : WifiConnStatus, (app_wifi_status_callback s).length = 1) ∧
    app_wifi_status_callback .disconnected = [(.wifiConnecting, 10)] ∧
    app_wifi_status_callback .connecting = [(.wifiConnecting, 10)] ∧
    app_wifi_status_callback .connectedGotIp = [(.wifiConnected, 10)] ∧
    app_wifi_status_callback .connectionFailed = [(.error, 10)] := by
  refine ⟨fun s => ?_, rfl, rfl, rfl, rfl⟩
  cases s <;> rfl

/-- C10: the Message Session status handler does nothing on status
Connecting: no indicator command is enqueued and no publish, subscribe or
serial send occurs, so the indicator queue and the indicator steady state
are unchanged by that invocation. -/
theorem mqtt_status_connecting_no_effects :
    ∀ (wifiConnected : Bool) (subTopic : String),
      app_mqtt_status_callback wifiConnected subTopic .connecting = [] ∧
      (∀ q : List LedCmd,
        q ++ ledCmdsOfEffects
          (app_mqtt_status_callback wifiConnected subTopic .connecting) = q) ∧
      (∀ s : LedCmd,
        (ledRun s (ledCmdsOfEffects
          (app_mqtt_status_callback wifiConnected subTopic .connecting))).1 = s) := by
  intro w st
  exact ⟨rfl, fun q => by simp [app_mqtt_status_callback, ledCmdsOfEffects],
    fun s => rfl⟩

/-- C6: on status Connected the Message Session status handler enqueues a
SessionConnected indicator command first and then issues exactly one
subscribe for the precomputed subscription topic; on Disconnected or
Error it enqueues exactly one indicator command chosen from the current
Network Station connectivity and makes no subscribe call. -/
theorem mqtt_status_handler_effects (m : Mac) (w : Bool) :
    app_mqtt_status_callback w (mqtt_sub_topic_str m) .connected =
      [.ledSend .mqttConnected 10, .subscribeReq (mqtt_sub_topic_str m) 1] ∧
    app_mqtt_status_callback w (mqtt_sub_topic_str m) .disconnected =
      [.ledSend (if w then .wifiConnected else .wifiConnecting) 10] ∧
    app_mqtt_status_callback w (mqtt_sub_topic_str m) .error =
      [.ledSend (if w then .wifiConnected else .wifiConnecting) 10] := by
  have hlen : (mqtt_sub_topic_str m).length > 0 := by
    rw [mqtt_sub_topic_str_eq]
    show 0 < (APP_MQTT_SUB_BASE_TOPIC.data ++ (mac_address_str m).data).length
    simp
    left
    decide
  exact ⟨by simp [app_mqtt_status_callback, hlen], rfl, rfl⟩

/-- C9: the subscription topic computed at startup equals the fixed
subscribe prefix concatenated with the device MAC address rendered as 12
unseparated uppercase hexadecimal digits (characters from the uppercase
hex digit table).  In the embedding the topic is a pure function of the
MAC address, computed by the single startup assignment in `app_main`;
no other code writes it. -/
theorem subscription_topic_construction (m : Mac) :
    mqtt_sub_topic_str m = APP_MQTT_SUB_BASE_TOPIC ++ mac_address_str m ∧
    (mac_address_str m).length = 12 ∧
    (∀ c ∈ (mac_address_str m).data, c ∈ hexChars) ∧
    (∀ c ∈ hexChars, c.isDigit ∨ c.isUpper) :=
  ⟨mqtt_sub_topic_str_eq m, mac_address_str_length m, mac_chars_hex m, by decide⟩

/-- A concrete MAC address used to instantiate the universally quantified
theorems. -/
def macDemo : Mac := ⟨0xAA, 0xBB, 0xCC, 0xDD, 0xEE, 0xFF⟩

lemma ledStep_activity_steady (s c : LedCmd) (hc : isActivityCmd c) :
    (ledStep s c).1 = s := by
  rcases hc with h | h <;> subst h <;> rfl

lemma ledStep_activity_on_last (c : LedCmd) (hc : isActivityCmd c) :
    (ledStep LedCmd.mqttConnected c).2.getLast? = some 1 ∧
    (ledStep LedCmd.mqttConnected c).2 ≠ [] := by
  rcases hc with h | h <;> subst h <;> exact ⟨rfl, by decide⟩

lemma ledRun_activity_replicate (c : LedCmd) (hc : isActivityCmd c) :
    ∀ n : Nat,
      (ledRun LedCmd.mqttConnected (List.replicate n c)).1 = LedCmd.mqttConnected ∧
      (n ≠ 0 →
        (ledRun LedCmd.mqttConnected (List.replicate n c)).2.getLast? = some 1) := by
  intro n
  induction n with
  | zero => exact ⟨rfl, fun h => absurd rfl h⟩
  | succ k ih =>
    have hstep := ledStep_activity_steady LedCmd.mqttConnected c hc
    have hlast := ledStep_activity_on_last c hc
    constructor
    · show (ledRun LedCmd.mqttConnected (c :: List.replicate k c)).1 = _
      simp only [ledRun]
      rw [hstep]
      exact ih.1
    · intro _
      show (ledRun LedCmd.mqttConnected (c :: List.replicate k c)).2.getLast? = some 1
      simp only [ledRun]
      rw [hstep]
      rcases Nat.eq_zero_or_pos k with hk | hk
      · subst hk
        simp only [List.replicate, ledRun, List.append_nil]
        exact hlast.1
      · have hrest := (ih.2 (Nat.pos_iff_ne_zero.mp hk))
        have hne : (ledRun LedCmd.mqttConnected (List.replicate k c)).2 ≠ [] := by
          intro hnil
          rw [hnil] at hrest
          simp at hrest
        rw [List.getLast?_append_of_ne_nil _ hne]
        exact hrest

/-- C4: activity commands never mutate the indicator steady state: for
every prior steady state, processing SerialActivity or SessionActivity
leaves the steady-state variable unchanged; and processing any number of
consecutive activity commands while the steady state is SessionConnected
leaves it SessionConnected, with the last GPIO write restoring the output
high. -/
theorem indicator_activity_preserves_steady :
    (∀ s c : LedCmd, isActivityCmd c → (ledStep s c).1 = s) ∧
    (∀ (n : Nat) (c : LedCmd), isActivityCmd c →
      (ledRun LedCmd.mqttConnected (List.replicate n c)).1 = LedCmd.mqttConnected ∧
      (n ≠ 0 →
        (ledRun LedCmd.mqttConnected (List.replicate n c)).2.getLast? = some 1)) :=
  ⟨ledStep_activity_steady, fun n c hc => ledRun_activity_replicate c hc n⟩

/-- Witness for C4: three consecutive SerialActivity commands from steady
state SessionConnected, and one SessionActivity step from steady state
WifiConnecting. -/
theorem indicator_activity_preserves_steady_witness :
    (ledRun LedCmd.mqttConnected
      (List.replicate 3 LedCmd.uartRxReceived)).1 = LedCmd.mqttConnected ∧
    (ledRun LedCmd.mqttConnected
      (List.replicate 3 LedCmd.uartRxReceived)).2.getLast? = some 1 ∧
    (ledStep LedCmd.wifiConnecting LedCmd.mqttRxReceived).1 = LedCmd.wifiConnecting :=
  ⟨(indicator_activity_preserves_steady.2 3 _ (Or.inl rfl)).1,
   (indicator_activity_preserves_steady.2 3 _ (Or.inl rfl)).2 (by decide),
   indicator_activity_preserves_steady.1 _ _ (Or.inr rfl)⟩

/-- C1 (amended): for every parse result that is a JSON object with
string fields `topic` and `payload`, the serial inbound handler makes
exactly one publish call with qos 1, retain 0, payload the parsed payload
string, and topic the publish prefix concatenated with the parsed suffix
truncated to the 127 characters that fit the 128-byte topic buffer; it
writes exactly one response frame chosen by the publish result. -/
theorem uart_rx_valid_effects (r : JVal) (t p : String) (pubRet : CEsp)
    (ht : getObjectItem r "topic" = some (.str t))
    (hp : getObjectItem r "payload" = some (.str p)) :
    app_uart_rx_callback true (some r) pubRet =
      ⟨[(.uartRxReceived, 10)],
       [⟨strTake (APP_MQTT_PUB_BASE_TOPIC ++ t) 127, p, -1, 1, 0⟩],
       [if pubRet = .ok then "OK: Sent to MQTT Queue\r\n"
        else "Error: Failed to send to MQTT\r\n"]⟩ := by
  cases pubRet <;> simp [app_uart_rx_callback, ht, hp]

/-- Witness for C1 (amended): the end-to-end scenario input with topic
`temp` and payload `23.5` and a successful publish. -/
theorem uart_rx_valid_effects_witness :
    app_uart_rx_callback true
      (some (.obj [("topic", .str "temp"), ("payload", .str "23.5")])) .ok =
      ⟨[(.uartRxReceived, 10)],
       [⟨"pub/data/temp", "23.5", -1, 1, 0⟩],
       ["OK: Sent to MQTT Queue\r\n"]⟩ :=
  (uart_rx_valid_effects (.obj [("topic", .str "temp"), ("payload", .str "23.5")])
    "temp" "23.5" .ok (by rfl) (by rfl)).trans (by decide)

/-- A 119-character topic suffix: together with the 9-character publish
prefix it exceeds the 128-byte `full_topic` buffer. -/
def longSuffix : String := ⟨List.replicate 119 'a'⟩

/-- Counterexample for C1 as stated: for this valid input the published
topic is not the prefix concatenated with the parsed suffix, because
`snprintf` into the 128-byte `full_topic` buffer truncates it. -/
theorem uart_rx_topic_truncation_cex :
    (app_uart_rx_callback true
      (some (.obj [("topic", .str longSuffix), ("payload", .str "p")]))
      .ok).pubs.map PubCall.topic ≠ [APP_MQTT_PUB_BASE_TOPIC ++ longSuffix] := by
  decide

/-- C2: a serial buffer that does not parse as JSON produces no publish
call and exactly one "Error: Invalid JSON" frame; a buffer that parses
but whose `topic` or `payload` field is missing or not a string produces
no publish call and exactly one "Error: Missing/Invalid ..." frame. -/
theorem uart_rx_error_frames :
    (∀ pubRet, app_uart_rx_callback true none pubRet =
      ⟨[(.uartRxReceived, 10)], [], ["Error: Invalid JSON\r\n"]⟩) ∧
    (∀ (r : JVal) (pubRet : CEsp),
      (isStrField r "topic" && isStrField r "payload") = false →
      app_uart_rx_callback true (some r) pubRet =
        ⟨[(.uartRxReceived, 10)], [],
         ["Error: Missing/Invalid \x27topic\x27 or \x27payload\x27\r\n"]⟩) := by
  constructor
  · intro pubRet
    rfl
  · intro r pubRet h
    unfold isStrField at h
    cases ht : getObjectItem r "topic" with
    | none => simp [app_uart_rx_callback, ht]
    | some v =>
      cases v with
      | str t =>
        cases hp : getObjectItem r "payload" with
        | none => simp [app_uart_rx_callback, ht, hp]
        | some w =>
          cases w with
          | str q =>
            rw [ht, hp] at h
            simp at h
          | null => simp [app_uart_rx_callback, ht, hp]
          | bool b => simp [app_uart_rx_callback, ht, hp]
          | num n => simp [app_uart_rx_callback, ht, hp]
          | arr xs => simp [app_uart_rx_callback, ht, hp]
          | obj fs => simp [app_uart_rx_callback, ht, hp]
      | null => simp [app_uart_rx_callback, ht]
      | bool b => simp [app_uart_rx_callback, ht]
      | num n => simp [app_uart_rx_callback, ht]
      | arr xs => simp [app_uart_rx_callback, ht]
      | obj fs => simp [app_uart_rx_callback, ht]

/-- Witness for C2: the non-JSON buffer case and an object without the
required fields. -/
theorem uart_rx_error_frames_witness :
    app_uart_rx_callback true none .ok =
      ⟨[(.uartRxReceived, 10)], [], ["Error: Invalid JSON\r\n"]⟩ ∧
    app_uart_rx_callback true (some (.obj [])) .ok =
      ⟨[(.uartRxReceived, 10)], [],
       ["Error: Missing/Invalid \x27topic\x27 or \x27payload\x27\r\n"]⟩ :=
  ⟨uart_rx_error_frames.1 .ok, uart_rx_error_frames.2 (.obj []) .ok rfl⟩

lemma mqtt_data_match_iff (m : Mac) (topic : List Nat) :
    (topic.length == (strBytes (mqtt_sub_topic_str m)).length &&
      strncmpZero topic (strBytes (mqtt_sub_topic_str m) ++ [0]) topic.length) = true ↔
    topic = strBytes (mqtt_sub_topic_str m) := by
  constructor
  · intro h
    rcases Bool.and_eq_true_iff.mp h with ⟨h1, h2⟩
    have hlen : topic.length = (strBytes (mqtt_sub_topic_str m)).length := by
      simpa using h1
    exact (strncmpZero_eq_iff topic _ (sub_topic_nul_free m) hlen).mp h2
  · intro h
    subst h
    refine Bool.and_eq_true_iff.mpr ⟨by simp, ?_⟩
    · exact (strncmpZero_eq_iff _ _ (sub_topic_nul_free m) rfl).mpr rfl

/-- C3 (amended): a Serial Transport send occurs iff the delivered topic
matches the precomputed subscription topic byte-for-byte and
length-exactly; on a match exactly one send occurs whose content is
"MQTT Data: " followed by the payload truncated at its first NUL byte
(the literal payload whenever the payload contains no NUL), followed by
the line terminator; on a mismatch no send occurs. -/
theorem mqtt_data_forward_iff (m : Mac) (topic data : List Nat) :
    ((app_mqtt_data_callback (strBytes (mqtt_sub_topic_str m)) topic data).sends ≠ []
      ↔ topic = strBytes (mqtt_sub_topic_str m)) ∧
    (topic = strBytes (mqtt_sub_topic_str m) →
      (app_mqtt_data_callback (strBytes (mqtt_sub_topic_str m)) topic data).sends =
        [strBytes "MQTT Data: " ++ data.takeWhile (fun b => b ≠ 0) ++ strBytes "\r\n"]) ∧
    ((∀ b ∈ data, b ≠ 0) → topic = strBytes (mqtt_sub_topic_str m) →
      (app_mqtt_data_callback (strBytes (mqtt_sub_topic_str m)) topic data).sends =
        [strBytes "MQTT Data: " ++ data ++ strBytes "\r\n"]) ∧
    (topic ≠ strBytes (mqtt_sub_topic_str m) →
      (app_mqtt_data_callback (strBytes (mqtt_sub_topic_str m)) topic data).sends = []) := by
  have hcstr : cstrTake data.length data = data.takeWhile (fun b => b ≠ 0) := by
    unfold cstrTake
    rw [List.take_length]
  have hframe :
      (strBytes "MQTT Data: " ++ cstrTake data.length data ++ strBytes "\r\n").length ≤
        data.length + 32 - 1 := by
    have ht : (cstrTake data.length data).length ≤ data.length := by
      rw [hcstr]
      simpa using List.Sublist.length_le (List.takeWhile_sublist _)
    simp only [List.length_append, strBytes, List.length_map]
    show ("MQTT Data: ".data.length + (cstrTake data.length data).length) +
      ("\r\n".data.length) ≤ data.length + 32 - 1
    have h11 : "MQTT Data: ".data.length = 11 := by decide
    have h2 : ("\r\n".data.length) = 2 := by decide
    omega
  have hmatch := mqtt_data_match_iff m topic
  by_cases hc : topic = strBytes (mqtt_sub_topic_str m)
  · have hcond := hmatch.mpr hc
    have hpos :
        (strBytes "MQTT Data: " ++ cstrTake data.length data ++ strBytes "\r\n").length > 0 := by
      simp [strBytes]
    have hsends :
        (app_mqtt_data_callback (strBytes (mqtt_sub_topic_str m)) topic data).sends =
          [strBytes "MQTT Data: " ++ data.takeWhile (fun b => b ≠ 0) ++ strBytes "\r\n"] := by
      unfold app_mqtt_data_callback
      rw [hcond]
      simp only [if_true, hpos, if_pos]
      rw [List.take_of_length_le hframe, hcstr]
    refine ⟨⟨fun _ => hc, fun _ => ?_⟩, fun _ => hsends, fun hnul _ => ?_, fun hne => absurd hc hne⟩
    · rw [hsends]
      simp
    · rw [hsends, List.takeWhile_eq_self_iff.mpr fun x hx => by simpa using hnul x hx]
  · have hcond : (topic.length == (strBytes (mqtt_sub_topic_str m)).length &&
        strncmpZero topic (strBytes (mqtt_sub_topic_str m) ++ [0]) topic.length) = false := by
      rcases hb : (topic.length == (strBytes (mqtt_sub_topic_str m)).length &&
        strncmpZero topic (strBytes (mqtt_sub_topic_str m) ++ [0]) topic.length) with _ | _
      · rfl
      · exact absurd (hmatch.mp hb) hc
    have hsends :
        (app_mqtt_data_callback (strBytes (mqtt_sub_topic_str m)) topic data).sends = [] := by
      unfold app_mqtt_data_callback
      rw [hcond]
      rfl
    exact ⟨⟨fun hne => absurd hsends hne, fun h => absurd h hc⟩,
      fun h => absurd h hc, fun _ h => absurd h hc, fun _ => hsends⟩

/-- Witness for C3 (amended): a matching delivery with NUL-free payload
`hi` produces exactly the framed payload; instantiated at the concrete
MAC AA:BB:CC:DD:EE:FF. -/
theorem mqtt_data_forward_iff_witness :
    (app_mqtt_data_callback (strBytes (mqtt_sub_topic_str macDemo))
      (strBytes (mqtt_sub_topic_str macDemo)) [104, 105]).sends =
      [strBytes "MQTT Data: " ++ [104, 105] ++ strBytes "\r\n"] :=
  (mqtt_data_forward_iff macDemo _ [104, 105]).2.2.1 (by decide) rfl

/-- Counterexample for C3 as stated: a matching delivery whose payload
contains a NUL byte is not forwarded literally, because `snprintf`'s
`%.*s` stops at the NUL. -/
theorem mqtt_data_literal_payload_cex :
    (app_mqtt_data_callback (strBytes (mqtt_sub_topic_str macDemo))
      (strBytes (mqtt_sub_topic_str macDemo)) [65, 0, 66]).sends ≠
      [strBytes "MQTT Data: " ++ [65, 0, 66] ++ strBytes "\r\n"] := by
  decide

/-- Counterexample for C7 as stated: not every queue send and lock
acquisition reachable from the MQTT event handler, the WiFi event
handlers and the serial receive loop is bounded — the MQTT event handler
takes the client mutex with `portMAX_DELAY`, and `uart_comm_transmit`
(reachable from the MQTT data path and from the serial receive loop)
takes the TX mutex with `portMAX_DELAY`. -/
theorem callback_context_waits_bounded_cex :
    callbackContextWaits.all waitBounded = false := by
  decide

/-- C7 (amended): every queue send reachable from the MQTT event
handler, the WiFi event handlers and the serial receive loop uses a
bounded timeout, and the `mqtt_comm` operation mutex takes are bounded;
but the MQTT event handler's own client-mutex acquisitions and the
serial transmit mutex acquisition use unbounded (`portMAX_DELAY`)
waits. -/
theorem callback_context_queue_sends_bounded :
    (callbackContextWaits.all fun w =>
      !(w.kind == WaitKind.queueSend) || waitBounded w) = true ∧
    (⟨WaitKind.mutexTake, none⟩ : Wait) ∈ mqtt_event_handler_waits ∧
    uart_comm_transmit_waits = [⟨WaitKind.mutexTake, none⟩] ∧
    (mqtt_comm_publish_waits ++ mqtt_comm_subscribe_waits ++
      mqtt_comm_unsubscribe_waits ++ mqtt_comm_is_connected_waits).all
        waitBounded = true := by
  decide

/-- C8: every `mqtt_comm` operation takes the client mutex with a
bounded timeout; on mutex timeout or when the connected flag is false,
publish, subscribe and unsubscribe return failure without invoking the
underlying client, so a client publish/subscribe/unsubscribe call occurs
only while the session is connected and the mutex was acquired; the
is-connected query reads the flag only under the mutex and reports false
on timeout. -/
theorem mqtt_ops_mutex_guard :
    ((mqtt_comm_publish_waits ++ mqtt_comm_subscribe_waits ++
      mqtt_comm_unsubscribe_waits ++ mqtt_comm_is_connected_waits).all
        waitBounded = true) ∧
    (∀ (st : MqttState) (tn dn : Bool) (len : Int) (mOk mid : Bool),
      (mOk = false → (mqtt_comm_publish st tn dn len mOk mid).ret ≠ .ok ∧
        (mqtt_comm_publish st tn dn len mOk mid).clientCalls = 0) ∧
      (st.isConnected = false →
        (mqtt_comm_publish st tn dn len mOk mid).ret ≠ .ok ∧
        (mqtt_comm_publish st tn dn len mOk mid).clientCalls = 0) ∧
      ((mqtt_comm_publish st tn dn len mOk mid).clientCalls ≠ 0 →
        st.isConnected = true ∧ mOk = true)) ∧
    (∀ (st : MqttState) (tn mOk mid : Bool),
      (mOk = false → (mqtt_comm_subscribe st tn mOk mid).ret ≠ .ok ∧
        (mqtt_comm_subscribe st tn mOk mid).clientCalls = 0) ∧
      (st.isConnected = false →
        (mqtt_comm_subscribe st tn mOk mid).ret ≠ .ok ∧
        (mqtt_comm_subscribe st tn mOk mid).clientCalls = 0) ∧
      ((mqtt_comm_subscribe st tn mOk mid).clientCalls ≠ 0 →
        st.isConnected = true ∧ mOk = true)) ∧
    (∀ (st : MqttState) (tn mOk mid : Bool),
      (mOk = false → (mqtt_comm_unsubscribe st tn mOk mid).ret ≠ .ok ∧
        (mqtt_comm_unsubscribe st tn mOk mid).clientCalls = 0) ∧
      (st.isConnected = false →
        (mqtt_comm_unsubscribe st tn mOk mid).ret ≠ .ok ∧
        (mqtt_comm_unsubscribe st tn mOk mid).clientCalls = 0) ∧
      ((mqtt_comm_unsubscribe st tn mOk mid).clientCalls ≠ 0 →
        st.isConnected = true ∧ mOk = true)) ∧
    (∀ st : MqttState, mqtt_comm_is_connected st false = false) := by
  refine ⟨by decide, ?_, ?_, ?_, fun st => rfl⟩
  · intro st tn dn len mOk mid
    refine ⟨fun h => ?_, fun h => ?_, fun h => ?_⟩ <;>
      unfold mqtt_comm_publish at * <;> split_ifs at * <;> simp_all
  · intro st tn mOk mid
    refine ⟨fun h => ?_, fun h => ?_, fun h => ?_⟩ <;>
      unfold mqtt_comm_subscribe at * <;> split_ifs at * <;> simp_all
  · intro st tn mOk mid
    refine ⟨fun h => ?_, fun h => ?_, fun h => ?_⟩ <;>
      unfold mqtt_comm_unsubscribe at * <;> split_ifs at * <;> simp_all

/-- Witness for C8: a publish attempted while disconnected makes no
client call and fails, and a publish attempted on mutex timeout makes no
client call. -/
theorem mqtt_ops_mutex_guard_witness :
    (mqtt_comm_publish ⟨true, false, true⟩ true true (-1) true true).clientCalls = 0 ∧
    (mqtt_comm_publish ⟨true, true, true⟩ true true (-1) false true).clientCalls = 0 :=
  ⟨((mqtt_ops_mutex_guard.2.1 ⟨true, false, true⟩ true true (-1) true true).2.1 rfl).2,
   ((mqtt_ops_mutex_guard.2.1 ⟨true, true, true⟩ true true (-1) false true).1 rfl).2⟩

/-- Witness for C9 at the concrete MAC AA:BB:CC:DD:EE:FF. -/
theorem subscription_topic_construction_witness :
    mqtt_sub_topic_str macDemo = APP_MQTT_SUB_BASE_TOPIC ++ mac_address_str macDemo ∧
    (mac_address_str macDemo).length = 12 ∧
    'A' ∈ hexChars ∧ ('B'.isDigit ∨ 'B'.isUpper) :=
  ⟨(subscription_topic_construction macDemo).1,
   (subscription_topic_construction macDemo).2.1,
   (subscription_topic_construction macDemo).2.2.1 'A' (by decide),
   (subscription_topic_construction macDemo).2.2.2 'B' (by decide)⟩
